import Mathlib

/-!
Verification development for the `wado` package (`wado/wado.py`): a client
that downloads DICOM objects from a WADO server.  The Python module is
shallowly embedded below: the HTTP transport is a parameter (a function from
URL and attempt index to the outcome of one `opener.open` call), response
bodies are character lists behind a once-readable stream, Python exceptions
become an `Exc` inductive carried in `Except`, and every observable side
effect (log emission, socket fetch, file open/write/close) is recorded in an
event list returned next to the result.
-/

namespace Wado

/-- Substring test on character lists: does the pattern occur contiguously?
Mirrors the semantics of the Python `in` operator on strings. -/
def bytesContains (pat : List Char) : List Char → Bool
  | [] => pat.isEmpty
  | c :: rest => pat.isPrefixOf (c :: rest) || bytesContains pat rest

/-- Substring test on strings (Python `pat in s`). -/
def strContains (s pat : String) : Bool :=
  bytesContains pat.data s.data

/-- Occurrence of a pattern inside a string, as a proposition on the
underlying character data. -/
def containsP (s pat : String) : Prop :=
  ∃ a b : List Char, s.data = a ++ pat.data ++ b

/-- Python `str.lower`, restricted to character-wise lowering. -/
def lowerStr (s : String) : String :=
  String.mk (s.data.map Char.toLower)

/-- Python exceptions that can cross the functions of the module.
`socketTimeout` is `socket.timeout`; `httpError` is `urllib.error.HTTPError`
(its subclass relation to `URLError` is captured by `isURLError`);
`urlError` is a plain `urllib.error.URLError` with a `reason`; the four
`wado...` constructors are the module's own exception classes
(`WadoConnectionAuthException` is a subclass of `WadoConnectionException`,
both below `WadoWrapperException`); `keyError`, `typeError` and
`unboundLocal` are the corresponding Python builtins. -/
inductive Exc
  | socketTimeout
  | httpError (code : Nat) (text : String)
  | urlError (reason : String)
  | wadoAuth (msg : String)
  | wadoConnection (msg : String)
  | wadoServerResponse (msg : String)
  | wadoResourceNotFound (msg : String)
  | keyError (key : String)
  | typeError (msg : String)
  | unboundLocal (name : String)
  deriving DecidableEq

/-- Python `str(e)` for the exceptions above. -/
def excStr : Exc → String
  | .socketTimeout => "timed out"
  | .httpError code text => "HTTP Error " ++ toString code ++ ": " ++ text
  | .urlError reason => "<urlopen error " ++ reason ++ ">"
  | .wadoAuth m => m
  | .wadoConnection m => m
  | .wadoServerResponse m => m
  | .wadoResourceNotFound m => m
  | .keyError k => "'" ++ k ++ "'"
  | .typeError m => m
  | .unboundLocal n => "local variable '" ++ n ++ "' referenced before assignment"

/-- Membership in the `urllib.error.URLError` class: `HTTPError` is a
subclass of `URLError`; `socket.timeout` and the module's own exceptions are
not. -/
def isURLError : Exc → Bool
  | .httpError _ _ => true
  | .urlError _ => true
  | _ => false

/-- One raw HTTP response as produced by `urllib` (`addinfourl`): status
code, the two headers the module consumes, and the full body content that
the underlying socket will deliver. -/
structure RawResponse where
  code : Nat
  contentType : Option String
  contentDisposition : Option String
  body : String
  deriving DecidableEq

/-- The once-readable body stream of a response (`socket._fileobject`).
`rem` is the content not yet consumed.  `failAtRead` optionally injects an
I/O failure at a given read index, modelling the transport dropping the
connection mid-download; `readsDone` counts the `read` calls issued so far. -/
structure BodyStream where
  rem : List Char
  failAtRead : Option Nat
  readsDone : Nat
  deriving DecidableEq

/-- Outcome of one `read` call on a body stream. -/
inductive ReadResult
  | chunk (data : List Char)
  | exc (e : Exc)
  deriving DecidableEq

/-- Sized read, `stream.read(n)`: returns at most `n` characters and
consumes them. -/
def bsRead (st : BodyStream) (n : Nat) : ReadResult × BodyStream :=
  if st.failAtRead = some st.readsDone then
    (.exc (.urlError "read failed"), { st with readsDone := st.readsDone + 1 })
  else
    (.chunk (st.rem.take n),
     { st with rem := st.rem.drop n, readsDone := st.readsDone + 1 })

/-- Unsized read, `stream.read()`: returns everything remaining. -/
def bsReadAll (st : BodyStream) : ReadResult × BodyStream :=
  if st.failAtRead = some st.readsDone then
    (.exc (.urlError "read failed"), { st with readsDone := st.readsDone + 1 })
  else
    (.chunk st.rem, { st with rem := [], readsDone := st.readsDone + 1 })

/-- The `WadoServerResponse` class: the wrapped `addinfourl` (headers kept in
`raw`, its live body stream in `stream`) plus the `_text` cache, `none`
standing for Python `None`. -/
structure WadoServerResponse where
  raw : RawResponse
  stream : BodyStream
  cachedText : Option String
  deriving DecidableEq

/-- The `WadoServerResponse.__init__` constructor: fresh stream, empty text
cache. -/
def mkResponse (raw : RawResponse) : WadoServerResponse :=
  { raw := raw
    stream := { rem := raw.body.data, failAtRead := none, readsDone := 0 }
    cachedText := none }

/-- The `is_text_response` property: raises `WadoServerResponseException`
when the Content-Type header is missing, otherwise tests whether it contains
"text/html". -/
def is_text_response (resp : WadoServerResponse) : Except Exc Bool :=
  match resp.raw.contentType with
  | none => .error (.wadoServerResponse "No content-type specified for this response")
  | some ct => .ok (strContains ct "text/html")

/-- Helper for the `text` property: the branch taken when the `_text` cache
is falsy (Python `None` or the empty byte string): if the response is a text
response, read the whole stream into the cache; either way return the cache. -/
def textRead (resp : WadoServerResponse) : Except Exc (Option String × WadoServerResponse) :=
  match is_text_response resp with
  | .error e => .error e
  | .ok true =>
    match bsReadAll resp.stream with
    | (.exc e, _) => .error e
    | (.chunk c, st') =>
      let t := String.mk c
      .ok (some t, { resp with stream := st', cachedText := some t })
  | .ok false => .ok (resp.cachedText, resp)

/-- The `text` property: `if self._text: return self._text`, else read and
cache (note the truthiness test: a cached empty string does not count as a
cache hit).  Returns the value together with the updated response object. -/
def text (resp : WadoServerResponse) : Except Exc (Option String × WadoServerResponse) :=
  match resp.cachedText with
  | some t => if t ≠ "" then .ok (some t, resp) else textRead resp
  | none => textRead resp

/-- Two consecutive accesses to the `text` property on the same response
object (the state produced by the first access feeds the second). -/
def textTwice (resp : WadoServerResponse) : Except Exc (Option String × WadoServerResponse) :=
  match text resp with
  | .error e => .error e
  | .ok (_, resp') => text resp'

/-- The `is_password_request_page` property: for text responses, decode the
body and search case-insensitively for the marker phrase; for non-text
responses answer `false` without reading the stream. -/
def is_password_request_page (resp : WadoServerResponse) :
    Except Exc (Bool × WadoServerResponse) :=
  match is_text_response resp with
  | .error e => .error e
  | .ok true =>
    match text resp with
    | .error e => .error e
    | .ok (t, resp') =>
      .ok (strContains (lowerStr (t.getD "")) "user login at", resp')
  | .ok false => .ok (false, resp)

/-- Static classification of a raw response as a password request page: it
has a Content-Type containing "text/html" and its body, lowercased, contains
the marker phrase.  For a freshly wrapped response this coincides with the
`is_password_request_page` property. -/
def classifiedAsPasswordPage (r : RawResponse) : Bool :=
  (match r.contentType with
   | some ct => strContains ct "text/html"
   | none => false) &&
  strContains (lowerStr r.body) "user login at"

/-- The fixed list of image MIME types accepted by `is_image_data`. -/
def image_content_types : List String :=
  ["image/jpeg", "image/gif", "image/bmp", "image/tiff"]

/-- The `is_image_data` property: Content-Type equals `application/dicom` or
is one of the listed image types (a missing header matches neither). -/
def is_image_data (resp : WadoServerResponse) : Bool :=
  (match resp.raw.contentType with
   | some ct => decide (ct = "application/dicom")
   | none => false) ||
  (match resp.raw.contentType with
   | some ct => image_content_types.contains ct
   | none => false)

/-- Split a character list at every occurrence of a separator character
(model of splitting a Python string on a one-character separator). -/
def splitOnChar (sep : Char) : List Char → List (List Char)
  | [] => [[]]
  | c :: rest =>
    if c = sep then [] :: splitOnChar sep rest
    else
      match splitOnChar sep rest with
      | [] => [[c]]
      | h :: t => (c :: h) :: t

/-- Strip leading and trailing spaces (model of Python `str.strip`). -/
def trimChars (l : List Char) : List Char :=
  ((l.dropWhile (· = ' ')).reverse.dropWhile (· = ' ')).reverse

/-- Strip one level of surrounding double quotes, as `cgi.parse_header` does
for parameter values. -/
def unquoteParam (l : List Char) : List Char :=
  if 2 ≤ l.length ∧ l.head? = some '"' ∧ l.getLast? = some '"' then
    (l.drop 1).dropLast
  else l

/-- Model of `cgi.parse_header`: split the header on semicolons; the first
part is the main value, the remaining parts of shape `key=value` become
parameters with lowercased keys and unquoted values; parts without an equals
sign are skipped. -/
def parse_header (line : String) : String × List (String × String) :=
  match splitOnChar ';' line.data with
  | [] => ("", [])
  | main :: rest =>
    (String.mk (trimChars main),
     rest.filterMap fun p =>
       match splitOnChar '=' p with
       | k :: v :: vs =>
         some (String.mk ((trimChars k).map Char.toLower),
               String.mk (unquoteParam (List.intercalate ['='] (v :: vs))))
       | _ => none)

/-- The `get_filename` method: a missing or falsy (empty) Content-Disposition
header yields `None`; otherwise the header is parsed and the `filename`
parameter looked up — a parsed header without that parameter raises
`KeyError`, exactly as the subscript `[...]["filename"]` does. -/
def get_filename (resp : WadoServerResponse) : Except Exc (Option String) :=
  match resp.raw.contentDisposition with
  | some cd =>
    if cd ≠ "" then
      match (parse_header cd).2.lookup "filename" with
      | some v => .ok (some v)
      | none => .error (.keyError "filename")
    else .ok none
  | none => .ok none

/-- Observable side effects of a session: a log line handed to the logger, a
single `opener.open(url, timeout)` call (with its attempt index inside the
retry schedule), and the file operations performed by the stream writer. -/
inductive Event
  | log (line : String)
  | fetch (url : String) (attempt : Nat)
  | fileOpen (path : String)
  | fileWrite (path : String) (chunk : String)
  | fileClose (path : String)
  deriving DecidableEq

/-- Is the event a file operation? -/
def Event.isFileEvent : Event → Bool
  | .fileOpen _ => true
  | .fileWrite _ _ => true
  | .fileClose _ => true
  | _ => false

/-- The file operations among a list of events. -/
def fileEvents (evs : List Event) : List Event :=
  evs.filter Event.isFileEvent

/-- The log lines among a list of events. -/
def logLines (evs : List Event) : List String :=
  evs.filterMap fun e => match e with | .log s => some s | _ => none

/-- Outcome of one `opener.open(url, timeout)` call: a `socket.timeout`, some
other raised exception, or a response. -/
inductive AttemptOutcome
  | timeout
  | failure (e : Exc)
  | ok (r : RawResponse)

/-- The HTTP transport: for each URL and attempt index, what the opener does. -/
abbrev Transport := String → Nat → AttemptOutcome

/-- The `WadoConnection` session object (its identity fields; the lazily
created opener and the re-entrant lock have no observable state here beyond
the transport parameter and the serialized call order). -/
structure WadoConnection where
  hostname : String
  port : String
  username : String
  password : String
  force_transfer_syntax : Option String
  deriving DecidableEq

/-- The `get_base_url_for_query` method. -/
def get_base_url_for_query (conn : WadoConnection) : String :=
  "http://" ++ conn.hostname ++ ":" ++ conn.port ++ "/wado/?"

/-- Model of `urllib.parse.urlencode` for string pairs that need no
percent-escaping: `k1=v1&k2=v2&...`. -/
def urlencode (params : List (String × String)) : String :=
  String.intercalate "&" (params.map fun kv => kv.1 ++ "=" ++ kv.2)

/-- The `get_resource_url` method: base URL, then — only when the parameter
mapping is non-empty — the encoded parameters followed by the fixed literal,
then the optional forced transfer syntax. -/
def get_resource_url (conn : WadoConnection) (resource_parameters : List (String × String)) :
    String :=
  let request := get_base_url_for_query conn
  let request :=
    if resource_parameters.isEmpty then request
    else request ++ urlencode resource_parameters ++
      "&contentType=application/dicom&requestType=WADO"
  match conn.force_transfer_syntax with
  | some ts => request ++ ("&transferSyntax=" ++ ts)
  | none => request

/-- The `get_login_url` method: `j_security_check` with the credentials
inserted verbatim. -/
def get_login_url (conn : WadoConnection) : String :=
  "http://" ++ conn.hostname ++ ":" ++ conn.port ++ "/wado/j_security_check?" ++
    "j_username=" ++ conn.username ++ "&j_password=" ++ conn.password

/-- The `make_safe_for_logging` method: replace the password with a fixed
placeholder. -/
def make_safe_for_logging (conn : WadoConnection) (msg : String) : String :=
  msg.replace conn.password "<password>"

/-- The five log levels `mylog` distinguishes. -/
inductive LogLevel
  | debug
  | info
  | warning
  | error
  | critical
  deriving DecidableEq

/-- The `mylog` method: returns the lines handed to the logger and the
exception the call raises, if any.  Every branch logs the redacted message
except the ERROR branch, whose `logger.error(msg)(sm)` slip logs the raw
message and then raises `TypeError` (calling the `None` returned by
`logger.error`). -/
def mylog (conn : WadoConnection) (msg : String) (loglevel : LogLevel) :
    List String × Option Exc :=
  let sm := make_safe_for_logging conn msg
  match loglevel with
  | .debug => ([sm], none)
  | .info => ([sm], none)
  | .warning => ([sm], none)
  | .error => ([msg], some (.typeError "'NoneType' object is not callable"))
  | .critical => ([sm], none)

/-- The fixed retry schedule of `get_response_raw`. -/
def timeouts_series : List Nat := [30, 30, 30, 300]

/-- The `for timeout_i, timeout in enumerate(timeouts_series)` loop of
`get_response_raw`.  `i` is the attempt index, the list argument the
remaining schedule, and `u` the Python local `u` (`none` while still
unbound).  A `socket.timeout` is re-raised only under the guard
`timeout_i >= len(timeouts_series)`, kept verbatim from the source; any
other exception propagates; a 200 response breaks out of the loop; a
non-200 response is kept in `u` and the loop continues. -/
def get_response_raw_loop (env : Transport) (url : String) :
    Nat → List Nat → Option RawResponse → Except Exc (Option RawResponse) × List Event
  | _, [], u => (.ok u, [])
  | i, _timeout :: rest, u =>
    match env url i with
    | .timeout =>
      if i ≥ timeouts_series.length then (.error .socketTimeout, [.fetch url i])
      else
        let (res, evs) := get_response_raw_loop env url (i + 1) rest u
        (res, .fetch url i :: evs)
    | .failure e => (.error e, [.fetch url i])
    | .ok r =>
      if r.code = 200 then (.ok (some r), [.fetch url i])
      else
        let (res, evs) := get_response_raw_loop env url (i + 1) rest (some r)
        (res, .fetch url i :: evs)

/-- The `get_response_raw` method: log the URL being opened, run the retry
loop, and `return u` — which raises `UnboundLocalError` when `u` was never
assigned. -/
def get_response_raw (env : Transport) (conn : WadoConnection) (url : String) :
    Except Exc RawResponse × List Event :=
  let logged := mylog conn ("Opening " ++ url) .debug
  match logged.2 with
  | some e => (.error e, logged.1.map Event.log)
  | none =>
    match get_response_raw_loop env url 0 timeouts_series none with
    | (.ok (some r), evs) => (.ok r, logged.1.map Event.log ++ evs)
    | (.ok none, evs) => (.error (.unboundLocal "u"), logged.1.map Event.log ++ evs)
    | (.error e, evs) => (.error e, logged.1.map Event.log ++ evs)

/-- The `get_response` method: wrap the raw response in a
`WadoServerResponse`. -/
def get_response (env : Transport) (conn : WadoConnection) (url : String) :
    Except Exc WadoServerResponse × List Event :=
  match get_response_raw env conn url with
  | (.error e, evs) => (.error e, evs)
  | (.ok raw, evs) => (.ok (mkResponse raw), evs)

/-- The `get_response_safe` method: fetch, then raise
`WadoConnectionAuthException` when the response is a password request page. -/
def get_response_safe (env : Transport) (conn : WadoConnection) (url : String) :
    Except Exc WadoServerResponse × List Event :=
  match get_response env conn url with
  | (.error e, evs) => (.error e, evs)
  | (.ok resp, evs) =>
    match is_password_request_page resp with
    | .error e => (.error e, evs)
    | .ok (true, _) =>
      (.error (.wadoAuth "Not authenticated. I'm receiving a login page"), evs)
    | .ok (false, resp') => (.ok resp', evs)

/-- The `handle_urlerror` method, which always raises; the returned value is
the exception it raises.  It is only ever invoked with `URLError` instances
(the catch-all final case returns the input unchanged and is unreachable
from the call sites). -/
def handle_urlerror (conn : WadoConnection) (e : Exc) (resource_url : String) : Exc :=
  match e with
  | .httpError code _ =>
    if code = 500 then
      .wadoServerResponse ("Got 'server error' response when requesting '" ++
        resource_url ++ ": This might happen if you do not include seriesUID" ++
        " explicitly. Original error:'" ++ excStr e ++ "'")
    else if code = 403 then
      .wadoServerResponse ("Got '403, access denied' response when requesting '" ++
        resource_url ++ ": Something might be wrong with your credentials" ++
        "error:'" ++ excStr e ++ "'")
    else
      .wadoServerResponse ("Got HTTP error response from server when requesting" ++
        " '" ++ resource_url ++ "' Original error:'" ++ excStr e ++ "'")
  | .urlError reason =>
    if reason = "Not Found" then
      .wadoResourceNotFound ("WADO resource for '" ++ resource_url ++ "' not found")
    else
      .wadoConnection ("Did not get response from WADO server at '" ++
        conn.hostname ++ ":" ++ conn.port ++ "'. Original error:'" ++ excStr e ++ "'")
  | e => e

/-- The `get_response_top_level` method: fetch the resource; on an
authentication error retry through the login URL, whose successful response
becomes the result; the login attempt's own failures are re-wrapped as
described in the source; transport failures go through `handle_urlerror`
with the original resource URL; everything else propagates. -/
def get_response_top_level (env : Transport) (conn : WadoConnection)
    (resource_url : String) : Except Exc WadoServerResponse × List Event :=
  match get_response_safe env conn resource_url with
  | (.ok resp, evs) => (.ok resp, evs)
  | (.error (.wadoAuth _), evs) =>
    match get_response_safe env conn (get_login_url conn) with
    | (.ok resp, evs2) => (.ok resp, evs ++ evs2)
    | (.error (.wadoAuth _), evs2) =>
      (.error (.wadoAuth ("Credentials for user '" ++ conn.username ++
        "' do not seem to be accepted")), evs ++ evs2)
    | (.error (.wadoServerResponse m), evs2) =>
      (.error (.wadoConnection ("got some response but not HTML from WADO server at" ++
        "'" ++ conn.hostname ++ ":" ++ conn.port ++ "'. Maybe wrong port or hostname." ++
        " Original error:'" ++ m ++ "'")), evs ++ evs2)
    | (.error e, evs2) =>
      if isURLError e then (.error (handle_urlerror conn e resource_url), evs ++ evs2)
      else (.error e, evs ++ evs2)
  | (.error e, evs) =>
    if isURLError e then (.error (handle_urlerror conn e resource_url), evs)
    else (.error e, evs)

/-- The fixed block size of `write_response`. -/
def block_sz : Nat := 8192

/-- The `while True` copy loop of `write_response`: read a block; an empty
block ends the loop and closes the file; a read failure propagates without
closing; otherwise write the block and continue.  The fuel argument only
bounds the iteration count; `write_response` passes enough for the loop
never to run out. -/
def write_response_loop (path : String) :
    Nat → BodyStream → Except Exc Unit × BodyStream × List Event
  | 0, st => (.ok (), st, [])
  | fuel + 1, st =>
    match bsRead st block_sz with
    | (.exc e, st') => (.error e, st', [])
    | (.chunk c, st') =>
      if c.isEmpty then (.ok (), st', [.fileClose path])
      else
        let (res, st'', evs) := write_response_loop path fuel st'
        (res, st'', .fileWrite path (String.mk c) :: evs)

/-- The `write_response` method: open the destination for binary write and
run the copy loop. -/
def write_response (path : String) (st : BodyStream) :
    Except Exc Unit × BodyStream × List Event :=
  let (res, st', evs) := write_response_loop path (st.rem.length + 1) st
  (res, st', .fileOpen path :: evs)

/-- Model of `os.path.join` for a relative file name. -/
def pathJoin (folder name : String) : String :=
  folder ++ "/" ++ name

/-- Python truthiness of the filename returned by `get_filename`:
`None` and the empty string are falsy. -/
def isFalsyName : Option String → Bool
  | none => true
  | some s => decide (s = "")

/-- The message of the generic download error raised when a response carries
no usable filename (both download methods build the same string). -/
def no_filename_msg : String :=
  "This url does not specify a filename." ++
    "I don't know which name to use to save this"

/-- The message of the generic download error raised when a response is not
image data. -/
def no_image_data_msg : String :=
  "This url does seem to yield any image data"

/-- The `download_image` method: fetch safely, require a filename and image
data, then stream to `folder/filename`. -/
def download_image (env : Transport) (conn : WadoConnection) (url folder : String) :
    Except Exc Unit × List Event :=
  match get_response_safe env conn url with
  | (.error e, evs) => (.error e, evs)
  | (.ok resp, evs) =>
    match get_filename resp with
    | .error e => (.error e, evs)
    | .ok file_name =>
      if isFalsyName file_name then
        (.error (.wadoConnection no_filename_msg), evs)
      else if !is_image_data resp then
        (.error (.wadoConnection no_image_data_msg), evs)
      else
        let file_path := pathJoin folder (file_name.getD "")
        let (res, _, wevs) := write_response file_path resp.stream
        (res, evs ++ wevs)

/-- The `download_wado_image` method: build the resource URL, run the
top-level retrieval sequence, then validate and stream exactly as
`download_image` does. -/
def download_wado_image (env : Transport) (conn : WadoConnection)
    (resource_parameters : List (String × String)) (folder : String) :
    Except Exc Unit × List Event :=
  let resource_url := get_resource_url conn resource_parameters
  match get_response_top_level env conn resource_url with
  | (.error e, evs) => (.error e, evs)
  | (.ok resp, evs) =>
    match get_filename resp with
    | .error e => (.error e, evs)
    | .ok file_name =>
      if isFalsyName file_name then
        (.error (.wadoConnection no_filename_msg), evs)
      else if !is_image_data resp then
        (.error (.wadoConnection no_image_data_msg), evs)
      else
        let file_path := pathJoin folder (file_name.getD "")
        let (res, _, wevs) := write_response file_path resp.stream
        (res, evs ++ wevs)

/-! Concrete fixtures used by the closed theorems and witnesses below.
They mirror the mock server responses of the package's own test suite. -/

/-- A session against the test server. -/
def connTest : WadoConnection :=
  { hostname := "testhost", port := "123", username := "testuser",
    password := "testpass", force_transfer_syntax := none }

/-- A session with short identity strings. -/
def connPlain : WadoConnection :=
  { hostname := "h", port := "1", username := "u", password := "p",
    force_transfer_syntax := none }

/-- A session whose password coincides with its username. -/
def connAdmin : WadoConnection :=
  { hostname := "h", port := "1", username := "admin", password := "admin",
    force_transfer_syntax := none }

/-- The HTML login page the server answers with when not authenticated. -/
def passwordPageRaw : RawResponse :=
  { code := 200, contentType := some "text/html;charset=ISO-8859-1",
    contentDisposition := none,
    body := "<html> <description>Login</description>user login at </html>" }

/-- A DICOM payload response with a filename. -/
def dicomRaw : RawResponse :=
  { code := 200, contentType := some "application/dicom",
    contentDisposition := some "val=test;filename=testfilename.dcm",
    body := "DICOMDATA" }

/-- A DICOM payload response without a Content-Disposition header. -/
def noNameDicomRaw : RawResponse :=
  { code := 200, contentType := some "application/dicom",
    contentDisposition := none, body := "DICOMDATA" }

/-- A DICOM payload response whose Content-Disposition has no filename
parameter. -/
def badCDDicomRaw : RawResponse :=
  { code := 200, contentType := some "application/dicom",
    contentDisposition := some "val=test;name=x", body := "DICOMDATA" }

/-- A non-200 text response. -/
def raw500 : RawResponse :=
  { code := 500, contentType := some "text/html", contentDisposition := none,
    body := "server error" }

/-- A transport that answers every request with the login page. -/
def envPasswordPage : Transport := fun _ _ => .ok passwordPageRaw

/-- A transport on which every attempt times out. -/
def envAllTimeout : Transport := fun _ _ => .timeout

/-- A transport whose first attempt yields a non-200 response and whose
later attempts time out. -/
def envNon200ThenTimeout : Transport := fun _ i =>
  if i = 0 then .ok raw500 else .timeout

/-- A transport reproducing the authentication quirk: the login URL yields
the DICOM payload, every other URL the login page. -/
def envLoginFlow : Transport := fun u _ =>
  if u = get_login_url connTest then .ok dicomRaw else .ok passwordPageRaw

/-- A transport that always answers with the unnamed DICOM payload. -/
def envNoName : Transport := fun _ _ => .ok noNameDicomRaw

/-- A transport that always answers with the DICOM payload whose
Content-Disposition lacks a filename parameter. -/
def envBadCD : Transport := fun _ _ => .ok badCDDicomRaw

/-- A transport on which every attempt fails like an unreachable host. -/
def envHostUnreachable : Transport := fun _ _ => .failure (.urlError "unreachable")

/-- A body stream whose second read raises, modelling a connection dropped
mid-download. -/
def failingStream : BodyStream :=
  { rem := "DICOMDATA".data, failAtRead := some 1, readsDone := 0 }

/-- A healthy three-character body stream. -/
def goodStream : BodyStream :=
  { rem := "abc".data, failAtRead := none, readsDone := 0 }

/-- A freshly wrapped response carrying an empty Content-Disposition
header. -/
def emptyCDResp : WadoServerResponse :=
  mkResponse { code := 200, contentType := some "application/dicom",
               contentDisposition := some "", body := "" }

/-- A freshly wrapped text response with an empty body. -/
def emptyTextResp : WadoServerResponse :=
  mkResponse { code := 200, contentType := some "text/html",
               contentDisposition := none, body := "" }

/-- A freshly wrapped text response with a non-empty body. -/
def abcTextResp : WadoServerResponse :=
  mkResponse { code := 200, contentType := some "text/html",
               contentDisposition := none, body := "abc" }

/-! Helper lemmas. -/

/-- The retry loop emits fetch events only: no file operations. -/
theorem loop_fileEvents (env : Transport) (url : String) :
    ∀ (rest : List Nat) (i : Nat) (u : Option RawResponse),
    fileEvents (get_response_raw_loop env url i rest u).2 = [] := by
  intro rest
  induction rest with
  | nil => intro i u; simp [get_response_raw_loop, fileEvents]
  | cons t rest ih =>
    intro i u
    simp only [get_response_raw_loop]
    cases env url i with
    | timeout =>
      by_cases h : i ≥ timeouts_series.length
      · simp [h, fileEvents, Event.isFileEvent]
      · simp only [if_neg h]
        rcases hrec : get_response_raw_loop env url (i + 1) rest u with ⟨res, evs⟩
        have := ih (i + 1) u
        rw [hrec] at this
        simpa [fileEvents, Event.isFileEvent] using this
    | failure e => simp [fileEvents, Event.isFileEvent]
    | ok r =>
      by_cases h : r.code = 200
      · simp [h, fileEvents, Event.isFileEvent]
      · simp only [if_neg h]
        rcases hrec : get_response_raw_loop env url (i + 1) rest (some r) with ⟨res, evs⟩
        have := ih (i + 1) (some r)
        rw [hrec] at this
        simpa [fileEvents, Event.isFileEvent] using this

/-- The retry loop emits no log lines. -/
theorem loop_logLines (env : Transport) (url : String) :
    ∀ (rest : List Nat) (i : Nat) (u : Option RawResponse),
    logLines (get_response_raw_loop env url i rest u).2 = [] := by
  intro rest
  induction rest with
  | nil => intro i u; simp [get_response_raw_loop, logLines]
  | cons t rest ih =>
    intro i u
    simp only [get_response_raw_loop]
    cases env url i with
    | timeout =>
      by_cases h : i ≥ timeouts_series.length
      · simp [h, logLines]
      · simp only [if_neg h]
        rcases hrec : get_response_raw_loop env url (i + 1) rest u with ⟨res, evs⟩
        have := ih (i + 1) u
        rw [hrec] at this
        simpa [logLines] using this
    | failure e => simp [logLines]
    | ok r =>
      by_cases h : r.code = 200
      · simp [h, logLines]
      · simp only [if_neg h]
        rcases hrec : get_response_raw_loop env url (i + 1) rest (some r) with ⟨res, evs⟩
        have := ih (i + 1) (some r)
        rw [hrec] at this
        simpa [logLines] using this

/-- The raw fetch emits no file operations. -/
theorem raw_fileEvents (env : Transport) (conn : WadoConnection) (url : String) :
    fileEvents (get_response_raw env conn url).2 = [] := by
  have h := loop_fileEvents env url timeouts_series 0 none
  rcases hrec : get_response_raw_loop env url 0 timeouts_series none with ⟨res, evs⟩
  rw [hrec] at h
  simp only at h
  unfold get_response_raw
  rcases res with e | r
  · simp [mylog, hrec, fileEvents, Event.isFileEvent]
    simpa [fileEvents, Event.isFileEvent] using h
  · rcases r with _ | r <;>
      · simp [mylog, hrec, fileEvents, Event.isFileEvent]
        simpa [fileEvents, Event.isFileEvent] using h

/-- Exactly one log line is emitted per raw fetch: the redacted
"Opening url" message. -/
theorem raw_logLines (env : Transport) (conn : WadoConnection) (url : String) :
    logLines (get_response_raw env conn url).2 =
      [make_safe_for_logging conn ("Opening " ++ url)] := by
  have h := loop_logLines env url timeouts_series 0 none
  rcases hrec : get_response_raw_loop env url 0 timeouts_series none with ⟨res, evs⟩
  rw [hrec] at h
  simp only at h
  unfold get_response_raw
  rcases res with e | r
  · simp [mylog, hrec, logLines]
    simpa [logLines] using h
  · rcases r with _ | r <;>
      · simp [mylog, hrec, logLines]
        simpa [logLines] using h

/-- The wrapped fetch passes the raw fetch's events through unchanged. -/
theorem response_events (env : Transport) (conn : WadoConnection) (url : String) :
    (get_response env conn url).2 = (get_response_raw env conn url).2 := by
  unfold get_response
  rcases hrec : get_response_raw env conn url with ⟨res, evs⟩
  cases res <;> simp

/-- The guarded fetch passes the raw fetch's events through unchanged. -/
theorem safe_events (env : Transport) (conn : WadoConnection) (url : String) :
    (get_response_safe env conn url).2 = (get_response_raw env conn url).2 := by
  have hre := response_events env conn url
  unfold get_response_safe
  rcases hrec : get_response env conn url with ⟨res, evs⟩
  rw [hrec] at hre
  simp only at hre
  rcases res with e | resp
  · simpa using hre
  · rcases hp : is_password_request_page resp with e | ⟨b, resp'⟩
    · simpa [hp] using hre
    · cases b <;> simpa [hp] using hre

/-- The guarded fetch performs no file operations. -/
theorem safe_fileEvents (env : Transport) (conn : WadoConnection) (url : String) :
    fileEvents (get_response_safe env conn url).2 = [] := by
  rw [safe_events]; exact raw_fileEvents env conn url

/-- The top-level retrieval sequence performs no file operations. -/
theorem top_fileEvents (env : Transport) (conn : WadoConnection) (url : String) :
    fileEvents (get_response_top_level env conn url).2 = [] := by
  have h1 := safe_fileEvents env conn url
  have h2 := safe_fileEvents env conn (get_login_url conn)
  unfold get_response_top_level
  rcases e1 : get_response_safe env conn url with ⟨res1, ev1⟩
  rw [e1] at h1
  simp only at h1
  rcases res1 with exc1 | resp1
  case mk.ok => simpa using h1
  case mk.error =>
    rcases e2 : get_response_safe env conn (get_login_url conn) with ⟨res2, ev2⟩
    rw [e2] at h2
    simp only at h2
    have happ : fileEvents (ev1 ++ ev2) = [] := by
      simp [fileEvents, List.filter_append] at h1 h2 ⊢
      exact ⟨h1, h2⟩
    cases exc1 <;>
      first
      | (simp only []
         rcases res2 with exc2 | resp2
         · cases exc2 <;> simp [happ, h1] <;> split <;> simp [happ, h1]
         · simpa using happ)
      | (simp only []; split <;> simpa using h1)

/-- Specification of the copy loop on a healthy stream: given enough fuel it
copies the remaining content block by block and ends by closing the file. -/
theorem write_response_loop_spec (path : String) :
    ∀ (fuel : Nat) (st : BodyStream), st.failAtRead = none → st.rem.length < fuel →
    ∃ (ws : List String) (st' : BodyStream),
      write_response_loop path fuel st =
        (.ok (), st', ws.map (Event.fileWrite path) ++ [Event.fileClose path]) ∧
      (ws.map String.data).flatten = st.rem ∧
      ∀ w ∈ ws, w.data.length ≤ block_sz ∧ w ≠ "" := by
  intro fuel
  induction fuel with
  | zero => intro st h hf; omega
  | succ fuel ih =>
    intro st h hf
    by_cases hr : st.rem = []
    · refine ⟨[], { st with rem := st.rem.drop block_sz, readsDone := st.readsDone + 1 },
        ?_, by simp [hr], by simp⟩
      simp [write_response_loop, bsRead, h, hr]
    · have hrl : 0 < st.rem.length := List.length_pos.mpr hr
      have hc : st.rem.take block_sz ≠ [] := by
        intro hcontra
        have h0 := congrArg List.length hcontra
        rw [List.length_take] at h0
        simp only [List.length_nil, Nat.min_eq_zero_iff, block_sz] at h0
        rcases h0 with h0 | h0 <;> omega
      obtain ⟨ws, st', h1, h2, h3⟩ := ih
        { st with rem := st.rem.drop block_sz, readsDone := st.readsDone + 1 }
        h (by simp only [List.length_drop, block_sz]; omega)
      rw [h] at h1
      simp only at h1 h2
      refine ⟨String.mk (st.rem.take block_sz) :: ws, st', ?_, ?_, ?_⟩
      · simp [write_response_loop, bsRead, h, hc, h1]
      · simp only [List.map_cons, List.flatten_cons]
        rw [h2]
        exact List.take_append_drop block_sz st.rem
      · intro w hw
        rcases List.mem_cons.mp hw with hw | hw
        · subst hw
          constructor
          · simp [List.length_take]
          · intro heq
            exact hc (by simpa using congrArg String.data heq)
        · exact h3 w hw

/-- Specification of `write_response` on a healthy stream: open, chunked
writes, close. -/
theorem write_response_spec (path : String) (st : BodyStream)
    (h : st.failAtRead = none) :
    ∃ (ws : List String) (st' : BodyStream),
      write_response path st =
        (.ok (), st',
         Event.fileOpen path :: (ws.map (Event.fileWrite path) ++ [Event.fileClose path])) ∧
      (ws.map String.data).flatten = st.rem ∧
      ∀ w ∈ ws, w.data.length ≤ block_sz ∧ w ≠ "" := by
  obtain ⟨ws, st', h1, h2, h3⟩ :=
    write_response_loop_spec path (st.rem.length + 1) st h (by omega)
  exact ⟨ws, st', by simp [write_response, h1], h2, h3⟩

/-- A freshly wrapped response which `classifiedAsPasswordPage` accepts is
recognized by the `is_password_request_page` property. -/
theorem mkResponse_password_page (r : RawResponse)
    (h : classifiedAsPasswordPage r = true) :
    ∃ w, is_password_request_page (mkResponse r) = .ok (true, w) := by
  unfold classifiedAsPasswordPage at h
  rcases hct : r.contentType with _ | ct
  · rw [hct] at h; simp at h
  · rw [hct] at h
    rw [Bool.and_eq_true] at h
    obtain ⟨h1, h2⟩ := h
    simp only at h1
    have htext :
        text (mkResponse r) =
          .ok (some (String.mk r.body.data),
            { raw := r
              stream := { rem := [], failAtRead := none, readsDone := 1 }
              cachedText := some (String.mk r.body.data) }) := by
      simp [text, mkResponse, textRead, is_text_response, hct, h1, bsReadAll]
    refine ⟨{ raw := r
              stream := { rem := [], failAtRead := none, readsDone := 1 }
              cachedText := some (String.mk r.body.data) }, ?_⟩
    simp only [mkResponse] at htext
    simp [is_password_request_page, is_text_response, mkResponse, hct, h1, htext]
    simpa using h2

/-- If a transport answers a URL on every attempt with a response satisfying
a predicate, the retry loop ends with such a response. -/
theorem loop_all_ok (env : Transport) (url : String) (Q : RawResponse → Bool)
    (h : ∀ i, ∃ r, env url i = .ok r ∧ Q r = true) :
    ∀ (rest : List Nat) (i : Nat) (u : Option RawResponse),
    (u = none → rest ≠ []) → (∀ r, u = some r → Q r = true) →
    ∃ r evs, get_response_raw_loop env url i rest u = (.ok (some r), evs) ∧ Q r = true := by
  intro rest
  induction rest with
  | nil =>
    intro i u hne hu
    rcases u with _ | r
    · exact absurd rfl (hne rfl)
    · exact ⟨r, [], by simp [get_response_raw_loop], hu r rfl⟩
  | cons t rest ih =>
    intro i u _ hu
    obtain ⟨r0, hr0, hq0⟩ := h i
    by_cases hcode : r0.code = 200
    · exact ⟨r0, [.fetch url i], by simp [get_response_raw_loop, hr0, hcode], hq0⟩
    · obtain ⟨r, evs, hloop, hq⟩ := ih (i + 1) (some r0)
        (by intro hcontra; cases hcontra)
        (by intro r' hr'; cases hr'; exact hq0)
      exact ⟨r, .fetch url i :: evs,
        by simp [get_response_raw_loop, hr0, hcode, hloop], hq⟩

/-- If a transport answers every URL on every attempt with a password page,
the guarded fetch raises the authentication error. -/
theorem safe_password_page (env : Transport) (conn : WadoConnection) (url : String)
    (h : ∀ u i, ∃ r, env u i = .ok r ∧ classifiedAsPasswordPage r = true) :
    ∃ evs, get_response_safe env conn url =
      (.error (.wadoAuth "Not authenticated. I'm receiving a login page"), evs) := by
  obtain ⟨r, evs, hloop, hq⟩ :=
    loop_all_ok env url classifiedAsPasswordPage (h url) timeouts_series 0 none
      (by intro _; simp [timeouts_series]) (by intro r hr; cases hr)
  obtain ⟨w, hw⟩ := mkResponse_password_page r hq
  refine ⟨Event.log (make_safe_for_logging conn ("Opening " ++ url)) :: evs, ?_⟩
  simp [get_response_safe, get_response, get_response_raw, mylog, hloop, hw]

/-! Claim theorems. -/

/-- C2: when every attempt of the fixed schedule raises `socket.timeout`,
the retry loop does not propagate the timeout: the re-raise guard
`timeout_i >= len(timeouts_series)` can never hold, so the final `return u`
raises `UnboundLocalError` instead; when a non-200 response was obtained
before the remaining attempts timed out, the last response obtained is
returned, as the claim states. -/
theorem c2_retry_exhaustion :
    (get_response_raw envAllTimeout connTest "http://testhost:123/wado/?x=1").1 =
      .error (.unboundLocal "u") ∧
    (get_response_raw envNon200ThenTimeout connTest "http://testhost:123/wado/?x=1").1 =
      .ok raw500 :=
  ⟨rfl, rfl⟩

/-- C4 counterexample, refuting two parts of the claim as stated.  First,
with the empty parameter mapping the generated URL is just the base query
URL and does not contain the literal
`&contentType=application/dicom&requestType=WADO`, although the claim
includes the empty mapping.  Second, the only-if direction of the
transfer-syntax clause fails: with no forced transfer syntax set, a mapping
that itself carries a `transferSyntax` key is URL-encoded into the query and
the result contains `&transferSyntax=x` all the same. -/
theorem c4_counterexample :
    (get_resource_url connPlain [] = "http://h:1/wado/?" ∧
     ¬ containsP (get_resource_url connPlain [])
        "&contentType=application/dicom&requestType=WADO") ∧
    (connPlain.force_transfer_syntax = none ∧
     containsP (get_resource_url connPlain [("a", "1"), ("transferSyntax", "x")])
       ("&transferSyntax=" ++ "x")) := by
  refine ⟨⟨rfl, ?_⟩, rfl,
    ⟨"http://h:1/wado/?a=1".data,
     "&contentType=application/dicom&requestType=WADO".data, by decide⟩⟩
  rintro ⟨a, b, hab⟩
  have hlen := congrArg List.length hab
  have h1 : (get_resource_url connPlain []).data.length = 17 := rfl
  have h2 : ("&contentType=application/dicom&requestType=WADO" : String).data.length = 47 := rfl
  rw [h1] at hlen
  simp only [List.length_append, h2] at hlen
  omega

/-- C4 (amended): for every parameter mapping the generated URL extends the
base query URL; it contains the literal
`&contentType=application/dicom&requestType=WADO` whenever the mapping is
non-empty; it contains `&transferSyntax=value` whenever a forced transfer
syntax is set; and for the empty mapping it is exactly the base URL followed
by the optional transfer-syntax suffix.  Both restrictions are forced by the
counterexample: the empty mapping lacks the fixed literal, and the only-if
direction of the transfer-syntax clause fails when the mapping itself
carries a `transferSyntax` key. -/
theorem c4_resource_url_shape (conn : WadoConnection) (params : List (String × String)) :
    (∃ rest : String,
      get_resource_url conn params = get_base_url_for_query conn ++ rest) ∧
    (params ≠ [] →
      containsP (get_resource_url conn params)
        "&contentType=application/dicom&requestType=WADO") ∧
    (∀ ts, conn.force_transfer_syntax = some ts →
      containsP (get_resource_url conn params) ("&transferSyntax=" ++ ts)) ∧
    (params = [] →
      get_resource_url conn params =
        get_base_url_for_query conn ++
          (match conn.force_transfer_syntax with
           | some ts => "&transferSyntax=" ++ ts
           | none => "")) := by
  rcases hf : conn.force_transfer_syntax with _ | ts <;>
    rcases hp : params with _ | ⟨p, ps⟩
  · refine ⟨⟨"", by simp [get_resource_url, hf]⟩, ?_, ?_, ?_⟩
    · intro hcontra; exact absurd rfl hcontra
    · intro ts hts; cases hts
    · intro _; simp [get_resource_url, hf]
  · refine ⟨?_, ?_, ?_, ?_⟩
    · refine ⟨urlencode (p :: ps) ++ "&contentType=application/dicom&requestType=WADO", ?_⟩
      simp [get_resource_url, hf, String.append_assoc]
    · intro _
      refine ⟨(get_base_url_for_query conn ++ urlencode (p :: ps)).data, [], ?_⟩
      simp [get_resource_url, hf, String.data_append]
    · intro ts hts; cases hts
    · intro hcontra; cases hcontra
  · refine ⟨⟨"&transferSyntax=" ++ ts, ?_⟩, ?_, ?_, ?_⟩
    · simp [get_resource_url, hf]
    · intro hcontra; exact absurd rfl hcontra
    · intro ts' hts'
      obtain rfl := Option.some.inj hts'
      refine ⟨(get_base_url_for_query conn).data, [], ?_⟩
      simp [get_resource_url, hf, String.data_append]
    · intro _; simp [get_resource_url, hf]
  · refine ⟨?_, ?_, ?_, ?_⟩
    · refine ⟨urlencode (p :: ps) ++ "&contentType=application/dicom&requestType=WADO" ++
        ("&transferSyntax=" ++ ts), ?_⟩
      simp [get_resource_url, hf, String.append_assoc]
    · intro _
      refine ⟨(get_base_url_for_query conn ++ urlencode (p :: ps)).data,
        ("&transferSyntax=" ++ ts).data, ?_⟩
      simp [get_resource_url, hf, String.data_append, List.append_assoc]
    · intro ts' hts'
      obtain rfl := Option.some.inj hts'
      refine ⟨(get_base_url_for_query conn ++ urlencode (p :: ps) ++
        "&contentType=application/dicom&requestType=WADO").data, [], ?_⟩
      simp [get_resource_url, hf, String.data_append, List.append_assoc]
    · intro hcontra; cases hcontra

/-- Witness for the amended C4 at a concrete input. -/
theorem c4_resource_url_shape_witness :
    ([("studyUID", "123345")] : List (String × String)) ≠ [] ∧
    containsP (get_resource_url connPlain [("studyUID", "123345")])
      "&contentType=application/dicom&requestType=WADO" :=
  ⟨by decide, (c4_resource_url_shape connPlain [("studyUID", "123345")]).2.1 (by decide)⟩

/-- C7 counterexample: when the second read of the body raises mid-copy,
`write_response` propagates the exception and never closes the file — the
event trace contains the open and the first write but no close, refuting the
close-on-every-exit-path part of the claim. -/
theorem c7_counterexample :
    (write_response "dest" failingStream).1 = .error (.urlError "read failed") ∧
    (write_response "dest" failingStream).2.2 =
      [Event.fileOpen "dest", Event.fileWrite "dest" "DICOMDATA"] ∧
    Event.fileClose "dest" ∉ (write_response "dest" failingStream).2.2 := by
  refine ⟨rfl, rfl, ?_⟩
  decide

/-- C7 (amended): `write_response` opens the destination for binary write,
reads and writes the body in chunks of at most 8192 bytes until
end-of-stream, and closes the file on normal completion; when a read raises
mid-copy the exception propagates and the close is skipped (see the
counterexample). -/
theorem c7_write_response_normal (path : String) (st : BodyStream)
    (h : st.failAtRead = none) :
    ∃ (ws : List String) (st' : BodyStream),
      write_response path st =
        (.ok (), st',
         Event.fileOpen path ::
           (ws.map (Event.fileWrite path) ++ [Event.fileClose path])) ∧
      (ws.map String.data).flatten = st.rem ∧
      ∀ w ∈ ws, w.data.length ≤ block_sz ∧ w ≠ "" :=
  write_response_spec path st h

/-- Witness for the amended C7 at a concrete healthy stream. -/
theorem c7_write_response_normal_witness :
    goodStream.failAtRead = none ∧
    ∃ (ws : List String) (st' : BodyStream),
      write_response "folder/file.dcm" goodStream =
        (.ok (), st',
         Event.fileOpen "folder/file.dcm" ::
           (ws.map (Event.fileWrite "folder/file.dcm") ++
             [Event.fileClose "folder/file.dcm"])) ∧
      (ws.map String.data).flatten = goodStream.rem ∧
      ∀ w ∈ ws, w.data.length ≤ block_sz ∧ w ≠ "" :=
  ⟨rfl, c7_write_response_normal "folder/file.dcm" goodStream rfl⟩

/-- C9 counterexample: on a text response with an empty body, every access
to the `text` property reads the drained stream again — after two accesses
two reads have been issued, refuting the read-at-most-once claim (the cached
empty string is falsy, so the cache check never hits). -/
theorem c9_counterexample :
    text emptyTextResp =
      .ok (some "", { raw := emptyTextResp.raw
                      stream := { rem := [], failAtRead := none, readsDone := 1 }
                      cachedText := some "" }) ∧
    textTwice emptyTextResp =
      .ok (some "", { raw := emptyTextResp.raw
                      stream := { rem := [], failAtRead := none, readsDone := 2 }
                      cachedText := some "" }) :=
  ⟨rfl, rfl⟩

/-- C9 (amended): on a text response with a non-empty unread body the first
access to the `text` property reads the stream once and caches the value,
and every later access returns the cached value from the unchanged response
state without reading again. -/
theorem c9_text_cached_nonempty (resp : WadoServerResponse) (ct : String)
    (h1 : resp.raw.contentType = some ct)
    (h2 : strContains ct "text/html" = true)
    (h3 : resp.cachedText = none)
    (h4 : resp.stream.rem ≠ [])
    (h5 : resp.stream.failAtRead = none) :
    ∃ resp',
      text resp = .ok (some (String.mk resp.stream.rem), resp') ∧
      resp'.stream.readsDone = resp.stream.readsDone + 1 ∧
      resp'.cachedText = some (String.mk resp.stream.rem) ∧
      text resp' = .ok (some (String.mk resp.stream.rem), resp') := by
  refine ⟨{ resp with
            stream := { resp.stream with rem := [], readsDone := resp.stream.readsDone + 1 }
            cachedText := some (String.mk resp.stream.rem) }, ?_, rfl, rfl, ?_⟩
  · simp [text, h3, textRead, is_text_response, h1, h2, bsReadAll, h5]
  · have hne : String.mk resp.stream.rem ≠ "" := by
      intro heq
      exact h4 (by simpa using congrArg String.data heq)
    simp [text, hne]

/-- Witness for the amended C9 at a concrete text response. -/
theorem c9_text_cached_nonempty_witness :
    abcTextResp.raw.contentType = some "text/html" ∧
    abcTextResp.cachedText = none ∧
    abcTextResp.stream.rem ≠ [] ∧
    ∃ resp',
      text abcTextResp = .ok (some (String.mk abcTextResp.stream.rem), resp') ∧
      resp'.stream.readsDone = abcTextResp.stream.readsDone + 1 ∧
      resp'.cachedText = some (String.mk abcTextResp.stream.rem) ∧
      text resp' = .ok (some (String.mk abcTextResp.stream.rem), resp') :=
  ⟨rfl, rfl, by decide,
   c9_text_cached_nonempty abcTextResp "text/html" rfl (by decide) rfl (by decide) rfl⟩

/-- C10 counterexample: a response that carries an (empty) Content-Disposition
header whose parsed parameters contain no filename entry makes `get_filename`
return `None` rather than raise `KeyError`, because the Python truthiness
test `if cd:` treats the empty header value like a missing header. -/
theorem c10_counterexample :
    emptyCDResp.raw.contentDisposition = some "" ∧
    (parse_header "").2.lookup "filename" = none ∧
    get_filename emptyCDResp = .ok none :=
  ⟨rfl, rfl, rfl⟩

/-- C10 (amended): for every response carrying a non-empty
Content-Disposition header whose parsed parameters contain no filename
entry, `get_filename` raises `KeyError`, and both download operations fail
with that `KeyError` instead of the generic no-filename download error. -/
theorem c10_missing_filename_key (env : Transport) (conn : WadoConnection)
    (url folder : String) (params : List (String × String))
    (r r' : WadoServerResponse) (ev ev' : List Event) (cd cd' : String)
    (h1 : get_response_safe env conn url = (.ok r, ev))
    (h2 : r.raw.contentDisposition = some cd)
    (h3 : cd ≠ "")
    (h4 : (parse_header cd).2.lookup "filename" = none)
    (h1' : get_response_top_level env conn (get_resource_url conn params) = (.ok r', ev'))
    (h2' : r'.raw.contentDisposition = some cd')
    (h3' : cd' ≠ "")
    (h4' : (parse_header cd').2.lookup "filename" = none) :
    get_filename r = .error (.keyError "filename") ∧
    (download_image env conn url folder).1 = .error (.keyError "filename") ∧
    (download_wado_image env conn params folder).1 = .error (.keyError "filename") := by
  have hg : get_filename r = .error (.keyError "filename") := by
    simp [get_filename, h2, h3, h4]
  have hg' : get_filename r' = .error (.keyError "filename") := by
    simp [get_filename, h2', h3', h4']
  refine ⟨hg, ?_, ?_⟩
  · simp [download_image, h1, hg]
  · simp [download_wado_image, h1', hg']

/-- Witness for the amended C10 at a concrete transport. -/
theorem c10_missing_filename_key_witness :
    (mkResponse badCDDicomRaw).raw.contentDisposition = some "val=test;name=x" ∧
    (parse_header "val=test;name=x").2.lookup "filename" = none ∧
    get_filename (mkResponse badCDDicomRaw) = .error (.keyError "filename") ∧
    (download_image envBadCD connPlain "u" "f").1 = .error (.keyError "filename") ∧
    (download_wado_image envBadCD connPlain [] "f").1 = .error (.keyError "filename") := by
  have h := c10_missing_filename_key envBadCD connPlain "u" "f" []
    (mkResponse badCDDicomRaw) (mkResponse badCDDicomRaw)
    (get_response_safe envBadCD connPlain "u").2
    (get_response_top_level envBadCD connPlain (get_resource_url connPlain [])).2
    "val=test;name=x" "val=test;name=x"
    rfl rfl (by decide) rfl rfl rfl (by decide) rfl
  exact ⟨rfl, rfl, h.1, h.2.1, h.2.2⟩

/-- C5: when every fetch of every URL returns a response classified as a
password page, `download_image` raises the authentication error,
`download_wado_image` raises the authentication error naming the username,
and neither operation performs any file operation. -/
theorem c5_all_password_pages (env : Transport) (conn : WadoConnection)
    (url folder : String) (params : List (String × String))
    (h : ∀ u i, ∃ r, env u i = .ok r ∧ classifiedAsPasswordPage r = true) :
    (download_image env conn url folder).1 =
      .error (.wadoAuth "Not authenticated. I'm receiving a login page") ∧
    (download_wado_image env conn params folder).1 =
      .error (.wadoAuth ("Credentials for user '" ++ conn.username ++
        "' do not seem to be accepted")) ∧
    fileEvents (download_image env conn url folder).2 = [] ∧
    fileEvents (download_wado_image env conn params folder).2 = [] := by
  obtain ⟨ev, hev⟩ := safe_password_page env conn url h
  obtain ⟨ev1, hev1⟩ := safe_password_page env conn (get_resource_url conn params) h
  obtain ⟨ev2, hev2⟩ := safe_password_page env conn (get_login_url conn) h
  have hfe : fileEvents ev = [] := by
    have hx := safe_fileEvents env conn url
    rw [hev] at hx
    simpa using hx
  have hfe1 : fileEvents ev1 = [] := by
    have hx := safe_fileEvents env conn (get_resource_url conn params)
    rw [hev1] at hx
    simpa using hx
  have hfe2 : fileEvents ev2 = [] := by
    have hx := safe_fileEvents env conn (get_login_url conn)
    rw [hev2] at hx
    simpa using hx
  have htop : get_response_top_level env conn (get_resource_url conn params) =
      (.error (.wadoAuth ("Credentials for user '" ++ conn.username ++
        "' do not seem to be accepted")), ev1 ++ ev2) := by
    simp [get_response_top_level, hev1, hev2]
  have happ : fileEvents (ev1 ++ ev2) = [] := by
    simp [fileEvents, List.filter_append] at hfe1 hfe2 ⊢
    exact ⟨hfe1, hfe2⟩
  refine ⟨?_, ?_, ?_, ?_⟩
  · simp [download_image, hev]
  · simp [download_wado_image, htop]
  · simp [download_image, hev, hfe]
  · simp [download_wado_image, htop, happ]

/-- Witness for C5 at the concrete all-password-page transport. -/
theorem c5_all_password_pages_witness :
    (∀ (u : String) (i : Nat), ∃ r, envPasswordPage u i = .ok r ∧
      classifiedAsPasswordPage r = true) ∧
    (download_image envPasswordPage connTest "testurl.com" "C:/temp").1 =
      .error (.wadoAuth "Not authenticated. I'm receiving a login page") ∧
    (download_wado_image envPasswordPage connTest [("ObjectID", "911")] "C:/temp").1 =
      .error (.wadoAuth ("Credentials for user '" ++ connTest.username ++
        "' do not seem to be accepted")) ∧
    fileEvents (download_image envPasswordPage connTest "testurl.com" "C:/temp").2 = [] ∧
    fileEvents
      (download_wado_image envPasswordPage connTest [("ObjectID", "911")] "C:/temp").2 = [] :=
  ⟨fun _ _ => ⟨passwordPageRaw, rfl, by decide⟩,
   c5_all_password_pages envPasswordPage connTest "testurl.com" "C:/temp"
     [("ObjectID", "911")] (fun _ _ => ⟨passwordPageRaw, rfl, by decide⟩)⟩

/-- C6: in both download operations a response whose filename is falsy or
which is not image data makes the operation fail with the generic
`WadoConnectionException` before any file operation happens: persistence
never proceeds on an unnamed or non-image response. -/
theorem c6_validation_before_persistence (env : Transport) (conn : WadoConnection)
    (url folder : String) (params : List (String × String))
    (r r' : WadoServerResponse) (ev ev' : List Event) (fn fn' : Option String)
    (h1 : get_response_safe env conn url = (.ok r, ev))
    (h2 : get_filename r = .ok fn)
    (h3 : isFalsyName fn = true ∨ is_image_data r = false)
    (h1' : get_response_top_level env conn (get_resource_url conn params) = (.ok r', ev'))
    (h2' : get_filename r' = .ok fn')
    (h3' : isFalsyName fn' = true ∨ is_image_data r' = false) :
    (download_image env conn url folder).1 =
      .error (.wadoConnection
        (if isFalsyName fn then no_filename_msg else no_image_data_msg)) ∧
    fileEvents (download_image env conn url folder).2 = [] ∧
    (download_wado_image env conn params folder).1 =
      .error (.wadoConnection
        (if isFalsyName fn' then no_filename_msg else no_image_data_msg)) ∧
    fileEvents (download_wado_image env conn params folder).2 = [] := by
  have hfe : fileEvents ev = [] := by
    have hx := safe_fileEvents env conn url
    rw [h1] at hx
    simpa using hx
  have hfe' : fileEvents ev' = [] := by
    have hx := top_fileEvents env conn (get_resource_url conn params)
    rw [h1'] at hx
    simpa using hx
  have hdl : download_image env conn url folder =
      (.error (.wadoConnection
        (if isFalsyName fn then no_filename_msg else no_image_data_msg)), ev) := by
    cases hffn : isFalsyName fn with
    | true => simp [download_image, h1, h2, hffn]
    | false =>
      have himg : is_image_data r = false := by
        rcases h3 with h3 | h3
        · rw [hffn] at h3; cases h3
        · exact h3
      simp [download_image, h1, h2, hffn, himg]
  have hdl' : download_wado_image env conn params folder =
      (.error (.wadoConnection
        (if isFalsyName fn' then no_filename_msg else no_image_data_msg)), ev') := by
    cases hffn : isFalsyName fn' with
    | true => simp [download_wado_image, h1', h2', hffn]
    | false =>
      have himg : is_image_data r' = false := by
        rcases h3' with h3' | h3'
        · rw [hffn] at h3'; cases h3'
        · exact h3'
      simp [download_wado_image, h1', h2', hffn, himg]
  refine ⟨by rw [hdl], by rw [hdl]; exact hfe, by rw [hdl'], by rw [hdl']; exact hfe'⟩

/-- Witness for C6 at a concrete transport serving a DICOM payload without a
Content-Disposition header. -/
theorem c6_validation_before_persistence_witness :
    get_filename (mkResponse noNameDicomRaw) = .ok none ∧
    isFalsyName none = true ∧
    (download_image envNoName connPlain "u" "f").1 =
      .error (.wadoConnection no_filename_msg) ∧
    fileEvents (download_image envNoName connPlain "u" "f").2 = [] ∧
    (download_wado_image envNoName connPlain [] "f").1 =
      .error (.wadoConnection no_filename_msg) ∧
    fileEvents (download_wado_image envNoName connPlain [] "f").2 = [] := by
  have h := c6_validation_before_persistence envNoName connPlain "u" "f" []
    (mkResponse noNameDicomRaw) (mkResponse noNameDicomRaw)
    (get_response_safe envNoName connPlain "u").2
    (get_response_top_level envNoName connPlain (get_resource_url connPlain [])).2
    none none rfl rfl (Or.inl rfl) rfl rfl (Or.inl rfl)
  exact ⟨rfl, rfl, h.1, h.2.1, h.2.2.1, h.2.2.2⟩

/-- A raw fetch whose first attempt raises a non-timeout failure propagates
that failure immediately, after a single fetch. -/
theorem raw_failure_first (env : Transport) (conn : WadoConnection) (url : String)
    (e : Exc) (h : env url 0 = .failure e) :
    get_response_raw env conn url =
      (.error e,
       [Event.log (make_safe_for_logging conn ("Opening " ++ url)),
        Event.fetch url 0]) := by
  simp [get_response_raw, mylog, timeouts_series, get_response_raw_loop, h]

/-- The guarded fetch passes a raw fetch failure through unchanged. -/
theorem safe_of_raw_error (env : Transport) (conn : WadoConnection) (url : String)
    (e : Exc) (evs : List Event)
    (h : get_response_raw env conn url = (.error e, evs)) :
    get_response_safe env conn url = (.error e, evs) := by
  simp [get_response_safe, get_response, h]

/-- C8: a non-timeout, non-HTTP transport failure (a `URLError` whose reason
is not "Not Found") on the first fetch propagates out of `download_image`
unmodified, while `download_wado_image` re-wraps it into a
`WadoConnectionException` whose message names the host and the port. -/
theorem c8_raw_vs_wrapped_transport_error (env : Transport) (conn : WadoConnection)
    (url folder reason : String) (params : List (String × String))
    (hr : reason ≠ "Not Found")
    (h1 : env url 0 = .failure (.urlError reason))
    (h2 : env (get_resource_url conn params) 0 = .failure (.urlError reason)) :
    (download_image env conn url folder).1 = .error (.urlError reason) ∧
    (download_wado_image env conn params folder).1 =
      .error (.wadoConnection ("Did not get response from WADO server at '" ++
        conn.hostname ++ ":" ++ conn.port ++ "'. Original error:'" ++
        excStr (.urlError reason) ++ "'")) := by
  have hsafe := safe_of_raw_error env conn url (.urlError reason) _
    (raw_failure_first env conn url (.urlError reason) h1)
  have hsafe2 := safe_of_raw_error env conn (get_resource_url conn params)
    (.urlError reason) _
    (raw_failure_first env conn (get_resource_url conn params) (.urlError reason) h2)
  constructor
  · simp [download_image, hsafe]
  · have htop : (get_response_top_level env conn (get_resource_url conn params)).1 =
        .error (.wadoConnection ("Did not get response from WADO server at '" ++
          conn.hostname ++ ":" ++ conn.port ++ "'. Original error:'" ++
          excStr (.urlError reason) ++ "'")) := by
      simp [get_response_top_level, hsafe2, isURLError, handle_urlerror, hr]
    rcases he : get_response_top_level env conn (get_resource_url conn params)
      with ⟨res, evs⟩
    rw [he] at htop
    simp only at htop
    rw [htop] at he
    simp [download_wado_image, he]

/-- Witness for C8 at a concrete unreachable-host transport. -/
theorem c8_raw_vs_wrapped_transport_error_witness :
    ("unreachable" : String) ≠ "Not Found" ∧
    (download_image envHostUnreachable connTest "http://test.com" "C:/temp").1 =
      .error (.urlError "unreachable") ∧
    (download_wado_image envHostUnreachable connTest [("ObjectID", "911")] "C:/temp").1 =
      .error (.wadoConnection ("Did not get response from WADO server at '" ++
        connTest.hostname ++ ":" ++ connTest.port ++ "'. Original error:'" ++
        excStr (.urlError "unreachable") ++ "'")) :=
  ⟨by decide,
   c8_raw_vs_wrapped_transport_error envHostUnreachable connTest "http://test.com"
     "C:/temp" "unreachable" [("ObjectID", "911")] (by decide) rfl rfl⟩

/-- C1: when the first guarded fetch of the resource URL raises the
authentication error and the guarded fetch of the login URL returns a
response, that login response is the value returned by
`get_response_top_level`, and `download_wado_image` validates and streams
exactly that response; the event trace is the resource attempt followed by
the login attempt followed by file operations only — no further fetch of the
resource URL happens. -/
theorem c1_login_response_used (env : Transport) (conn : WadoConnection)
    (params : List (String × String)) (folder m fn : String)
    (r : WadoServerResponse) (ev1 ev2 : List Event)
    (h1 : get_response_safe env conn (get_resource_url conn params) =
      (.error (.wadoAuth m), ev1))
    (h2 : get_response_safe env conn (get_login_url conn) = (.ok r, ev2))
    (h3 : get_filename r = .ok (some fn))
    (h4 : fn ≠ "")
    (h5 : is_image_data r = true)
    (h6 : r.stream.failAtRead = none) :
    get_response_top_level env conn (get_resource_url conn params) =
      (.ok r, ev1 ++ ev2) ∧
    ∃ ws : List String,
      download_wado_image env conn params folder =
        (.ok (),
         ev1 ++ ev2 ++
           (Event.fileOpen (pathJoin folder fn) ::
             (ws.map (Event.fileWrite (pathJoin folder fn)) ++
               [Event.fileClose (pathJoin folder fn)]))) ∧
      (ws.map String.data).flatten = r.stream.rem := by
  have htop : get_response_top_level env conn (get_resource_url conn params) =
      (.ok r, ev1 ++ ev2) := by
    simp [get_response_top_level, h1, h2]
  obtain ⟨ws, st', hw, hflat, _⟩ := write_response_spec (pathJoin folder fn) r.stream h6
  refine ⟨htop, ws, ?_, hflat⟩
  have hfn : isFalsyName (some fn) = false := by simp [isFalsyName, h4]
  simp [download_wado_image, htop, h3, hfn, h5, hw]

/-- Witness for C1 at the concrete transport reproducing the authentication
quirk: the resource URL yields the login page, the login URL yields the
DICOM payload. -/
theorem c1_login_response_used_witness :
    get_response_safe envLoginFlow connTest (get_resource_url connTest [("a", "1")]) =
      (.error (.wadoAuth "Not authenticated. I'm receiving a login page"),
       (get_response_safe envLoginFlow connTest
         (get_resource_url connTest [("a", "1")])).2) ∧
    get_response_safe envLoginFlow connTest (get_login_url connTest) =
      (.ok (mkResponse dicomRaw),
       (get_response_safe envLoginFlow connTest (get_login_url connTest)).2) ∧
    get_filename (mkResponse dicomRaw) = .ok (some "testfilename.dcm") ∧
    is_image_data (mkResponse dicomRaw) = true ∧
    (get_response_top_level envLoginFlow connTest
        (get_resource_url connTest [("a", "1")]) =
      (.ok (mkResponse dicomRaw),
       (get_response_safe envLoginFlow connTest
         (get_resource_url connTest [("a", "1")])).2 ++
       (get_response_safe envLoginFlow connTest (get_login_url connTest)).2) ∧
    ∃ ws : List String,
      download_wado_image envLoginFlow connTest [("a", "1")] "C:/temp" =
        (.ok (),
         (get_response_safe envLoginFlow connTest
           (get_resource_url connTest [("a", "1")])).2 ++
         (get_response_safe envLoginFlow connTest (get_login_url connTest)).2 ++
           (Event.fileOpen (pathJoin "C:/temp" "testfilename.dcm") ::
             (ws.map (Event.fileWrite (pathJoin "C:/temp" "testfilename.dcm")) ++
               [Event.fileClose (pathJoin "C:/temp" "testfilename.dcm")]))) ∧
      (ws.map String.data).flatten = (mkResponse dicomRaw).stream.rem) :=
  ⟨rfl, rfl, rfl, rfl,
   c1_login_response_used envLoginFlow connTest [("a", "1")] "C:/temp"
     "Not authenticated. I'm receiving a login page" "testfilename.dcm"
     (mkResponse dicomRaw)
     (get_response_safe envLoginFlow connTest (get_resource_url connTest [("a", "1")])).2
     (get_response_safe envLoginFlow connTest (get_login_url connTest)).2
     rfl rfl rfl (by decide) rfl rfl⟩

/-- C3 counterexample: for the session whose password equals its username,
the authentication failure raised by `download_wado_image` contains the
password as a substring and does not contain the placeholder — raised error
messages are not passed through redaction, refuting the claim. -/
theorem c3_counterexample :
    connAdmin.password = "admin" ∧
    connAdmin.password ≠ "" ∧
    (download_wado_image envPasswordPage connAdmin [] "folder").1 =
      .error (.wadoAuth "Credentials for user 'admin' do not seem to be accepted") ∧
    strContains "Credentials for user 'admin' do not seem to be accepted"
      connAdmin.password = true ∧
    strContains "Credentials for user 'admin' do not seem to be accepted"
      "<password>" = false :=
  ⟨rfl, by decide, rfl, by decide, by decide⟩

/-- C3 (amended): every log line the session emits is the raw message passed
through `make_safe_for_logging` (each occurrence of the password replaced by
the fixed placeholder); raised error messages are not redacted, and can
contain the password whenever it occurs in the other message material, for
instance in the username. -/
theorem c3_log_redaction_only (env : Transport) (conn : WadoConnection) (url : String) :
    logLines (get_response_raw env conn url).2 =
      [make_safe_for_logging conn ("Opening " ++ url)] ∧
    (download_wado_image envPasswordPage connAdmin [] "folder").1 =
      .error (.wadoAuth "Credentials for user 'admin' do not seem to be accepted") ∧
    strContains "Credentials for user 'admin' do not seem to be accepted"
      connAdmin.password = true :=
  ⟨raw_logLines env conn url, rfl, by decide⟩

end Wado
